import Mathlib

/-!
A shallow embedding, in Lean 4, of the core pipeline of the
`video-transcriber-app` repository (the subtitle-generation pipeline of
`transcriber.py`, its packaged copy `src/video_transcriber_app/transcriber.py`,
and the analysis dispatcher of `phi3_brain.py`), together with theorems that
settle the frozen specification claims C1–C10.

Modelling conventions:
* Python `float` arithmetic is embedded as exact fraction arithmetic
  (`PyFloat`, an unreduced numerator/denominator pair interpreted in `ℚ` by
  `PyFloat.toRat`); every concrete input used in a theorem below is a value on
  which the corresponding CPython float computation is exact, so the embedding
  and CPython agree on those inputs.
* Python exceptions are values of `PyExn` (kind + message); fallible code is
  embedded with `Except PyExn`.
* External collaborators (the Whisper engine, moviepy, the filesystem, the
  Phi-3 model) are supplied as an explicit environment whose fields script the
  outcome of each external call; the pipeline body itself is translated
  statement by statement from the source.
* The observable behaviour of one call (progress callbacks, logger calls,
  container open/close, temp-file creation/removal, the shape of the
  speech-engine invocation) is recorded in a chronological event trace.
-/

namespace VideoTranscriber

/-! ## Python string primitives -/

/-- Whitespace characters stripped by Python's `str.strip()` (ASCII subset;
the strings handled by this code base only carry ASCII whitespace). -/
def isPySpace (c : Char) : Bool :=
  c = ' ' || c = '\t' || c = '\n' || c = '\r' || c = Char.ofNat 11 || c = Char.ofNat 12

/-- Python `str.strip()`. -/
def pyStrip (s : String) : String :=
  String.mk (((s.toList.dropWhile isPySpace).reverse.dropWhile isPySpace).reverse)

/-- Python `str.lower()` (ASCII case folding; sufficient for the `'auto'`
sentinel comparison in the source). -/
def pyLower (s : String) : String :=
  String.mk (s.toList.map fun c => if 'A' ≤ c ∧ c ≤ 'Z' then Char.ofNat (c.toNat + 32) else c)

/-- Python `str.split()` with no arguments: split on whitespace runs,
discarding empty pieces. -/
def pySplitWs (s : String) : List String :=
  (s.split isPySpace).filter (· ≠ "")

/-- Python `str(x)` for an `Optional[str]`: `None` prints as `"None"`. -/
def pyStrOpt : Option String → String
  | none => "None"
  | some s => s

/-! ## Exact model of Python float values

`PyFloat` is an unreduced fraction `num / den` (`den` a positive natural in
every value this development constructs).  The fields are never normalised, so
all operations are plain integer arithmetic and reduce inside the kernel. -/

structure PyFloat where
  num : ℤ
  den : ℕ
deriving DecidableEq, Repr

namespace PyFloat

/-- The rational value denoted by a `PyFloat`. -/
def toRat (a : PyFloat) : ℚ := (a.num : ℚ) / (a.den : ℚ)

/-- An integer literal as a float. -/
def ofInt (n : ℤ) : PyFloat := ⟨n, 1⟩

def mul (a b : PyFloat) : PyFloat := ⟨a.num * b.num, a.den * b.den⟩

def sub (a b : PyFloat) : PyFloat := ⟨a.num * b.den - b.num * a.den, a.den * b.den⟩

/-- Exact division.  Only ever applied to a positive divisor in this
development (CPython would raise `ZeroDivisionError` on a zero divisor). -/
def div (a b : PyFloat) : PyFloat :=
  if 0 ≤ b.num then ⟨a.num * b.den, a.den * b.num.natAbs⟩
  else ⟨-(a.num * b.den), a.den * b.num.natAbs⟩

/-- The floor of the denoted value (`den > 0` in every use). -/
def floorVal (a : PyFloat) : ℤ := Int.fdiv a.num a.den

/-- Python `int(x)`: truncation toward zero (`den > 0` in every use). -/
def pyInt (a : PyFloat) : ℤ := Int.tdiv a.num a.den

/-- Python `divmod(a, b)` on floats: `(a // b, a - b * (a // b))`.  The
quotient is itself a float in CPython, hence `ofInt`. -/
def pyDivmod (a b : PyFloat) : PyFloat × PyFloat :=
  let q := (a.div b).floorVal
  (ofInt q, a.sub (b.mul (ofInt q)))

end PyFloat

/-- Python `f"{n:0w}"` for an integer `n`: decimal rendering left-padded with
zeros to width `w`, the padding inserted after the sign. -/
def pyFmt0 (n : ℤ) (w : Nat) : String :=
  let digits := toString n.natAbs
  if n < 0 then
    let padded :=
      if digits.length + 1 ≥ w then digits
      else String.mk (List.replicate (w - 1 - digits.length) '0') ++ digits
    "-" ++ padded
  else
    if digits.length ≥ w then digits
    else String.mk (List.replicate (w - digits.length) '0') ++ digits

end VideoTranscriber

namespace Transcriber

open VideoTranscriber

/-- Embedding of `format_timestamp` from `src/transcriber.py` (lines 175–180):
```
hours, remainder = divmod(seconds, 3600)
minutes, remainder = divmod(remainder, 60)
seconds, milliseconds = divmod(remainder, 1)
return f"{int(hours):02}:{int(minutes):02}:{int(seconds):02},{int(milliseconds * 1000):03}"
``` -/
def format_timestamp (seconds : PyFloat) : String :=
  let p1 := seconds.pyDivmod (PyFloat.ofInt 3600)
  let hours := p1.1
  let p2 := p1.2.pyDivmod (PyFloat.ofInt 60)
  let minutes := p2.1
  let p3 := p2.2.pyDivmod (PyFloat.ofInt 1)
  let secs := p3.1
  let milliseconds := p3.2
  pyFmt0 hours.pyInt 2 ++ ":" ++ pyFmt0 minutes.pyInt 2 ++ ":" ++
    pyFmt0 secs.pyInt 2 ++ "," ++ pyFmt0 (milliseconds.mul (PyFloat.ofInt 1000)).pyInt 3

/-- One transcript segment as returned by the speech-recognition engine:
the dicts `{"start": ..., "end": ..., "text": ...}` consumed by the SRT
formatting loop. -/
structure Segment where
  start : PyFloat
  «end» : PyFloat
  text : String
deriving DecidableEq, Repr

/-- One iteration of the SRT formatting loop of `transcribe_video`
(`src/transcriber.py` lines 147–152): the three `srt_content +=` statements
for the segment at 0-based index `i`. -/
def srt_entry (i : Nat) (segment : Segment) : String :=
  toString (i + 1) ++ "\n" ++
    format_timestamp segment.start ++ " --> " ++ format_timestamp segment.«end» ++ "\n" ++
    pyStrip segment.text ++ "\n\n"

/-- Embedding of the SRT formatting block of `transcribe_video`
(`src/transcriber.py` lines 146–152):
```
srt_content = ""
for i, segment in enumerate(result["segments"]):
    ...
    srt_content += ...
```
-/
def srt_format (segments : List Segment) : String :=
  segments.enum.foldl (fun srt_content p => srt_content ++ srt_entry p.1 p.2) ""

end Transcriber

open VideoTranscriber

/-! ## The `transcribe_video` pipeline (`src/transcriber.py` lines 81–172)

The pipeline's interactions with the outside world are scripted by an
environment `Env` and recorded as an event trace; the control flow (the
`try/except/except/except/finally` structure, the `with VideoFileClip(...)`
scope, and the per-step `if progress_callback:` guards) is translated
statement by statement from the source. -/

/-- Python exception classes distinguished by the handlers of
`transcribe_video`: `FileNotFoundError`, `ValueError`, and every other
`Exception` subclass. -/
inductive ExnKind where
  | fileNotFound
  | valueError
  | other
deriving DecidableEq, Repr

/-- A raised Python exception: its class bucket and its `str(e)` message. -/
structure PyExn where
  kind : ExnKind
  msg : String
deriving DecidableEq, Repr

/-- Observable actions of one `transcribe_video` call, in chronological
order. -/
inductive Event where
  | progress (label : String) (pct : PyFloat)
  | logInfo (msg : String)
  | logError (msg : String)
  | logCritical (msg : String)
  | loadModelCall (name : String)
  | openContainer
  | closeContainer
  | tempCreated (path : String)
  | exportCall (path : String)
  | transcribeCall (path : String) (lang : Option String)
  | tempRemoved (path : String)
deriving DecidableEq, Repr

/-- Mutable world touched by one call: the set of existing files and the
trace of observable events so far. -/
structure St where
  files : List String
  events : List Event
deriving DecidableEq, Repr

def emit (st : St) (e : Event) : St := { st with events := st.events ++ [e] }

def addFile (st : St) (p : String) : St := { st with files := p :: st.files }

def removeFile (st : St) (p : String) : St := { st with files := st.files.erase p }

/-- `os.path.exists`. -/
def fileExists (st : St) (p : String) : Bool := st.files.contains p

/-- Scripted outcomes of the external collaborators of one
`transcribe_video` call. -/
structure Env where
  /-- Files existing when the call starts. -/
  initFiles : List String
  /-- The fresh name `tempfile.NamedTemporaryFile(suffix=".mp3", delete=False)`
  picks, should the call get that far. -/
  tempName : String
  /-- Outcome of `whisper.load_model(model_name)`. -/
  loadModel : Except PyExn Unit
  /-- Outcome of `VideoFileClip(video_path)`: on success, whether
  `video.audio` is not `None`. -/
  openClip : Except PyExn Bool
  /-- Outcome of `video.audio.write_audiofile(temp_audio_file, logger=None)`. -/
  exportAudio : Except PyExn Unit
  /-- Outcome of `model.transcribe(...)`: on success, `result["segments"]`. -/
  transcribeRes : Except PyExn (List Transcriber.Segment)
deriving Repr

/-- Arguments of one `transcribe_video` call; `hasCallback` records whether
`progress_callback` is supplied (the callback itself is observed through
`Event.progress`). -/
structure Args where
  video_path : String
  model_name : String
  language : Option String
  hasCallback : Bool
deriving DecidableEq, Repr

/-- `if progress_callback: progress_callback(label, pct)`. -/
def progressIf (cb : Bool) (st : St) (label : String) (pct : PyFloat) : St :=
  if cb then emit st (.progress label pct) else st

namespace Transcriber

/-- The `try:` body of `transcribe_video` (`src/transcriber.py` lines
104–157).  Returns the result, the world state, and the final value of the
`temp_audio_file` variable (`none` embeds Python `None`). -/
def runBody (env : Env) (a : Args) (st0 : St) :
    Except PyExn String × St × Option String :=
  let st := progressIf a.hasCallback st0 "Carregando modelo Whisper..." (PyFloat.ofInt 5)
  let st := emit st (.logInfo ("Carregando modelo Whisper: " ++ a.model_name ++ "..."))
  let st := emit st (.loadModelCall a.model_name)
  match env.loadModel with
  | .error e => (.error e, st, none)
  | .ok _ =>
  let st := emit st (.logInfo "Modelo Whisper carregado com sucesso.")
  let st := progressIf a.hasCallback st "Modelo Whisper carregado." (PyFloat.ofInt 10)
  let st := emit st (.logInfo ("Extraindo áudio de: " ++ a.video_path))
  match env.openClip with
  | .error e => (.error e, st, none)
  | .ok hasAudio =>
  let st := emit st .openContainer
  if hasAudio = false then
    -- `raise ValueError(...)` inside the `with` block: the context manager
    -- releases the container, then the exception propagates.
    let st := emit st .closeContainer
    (.error ⟨.valueError, "O vídeo não contém uma faixa de áudio."⟩, st, none)
  else
    let t := env.tempName
    let st := emit (addFile st t) (.tempCreated t)
    let st := progressIf a.hasCallback st "Exportando áudio..." (PyFloat.ofInt 20)
    let st := emit st (.exportCall t)
    match env.exportAudio with
    | .error e => (.error e, emit st .closeContainer, some t)
    | .ok _ =>
    let st := emit st (.logInfo ("Áudio exportado para: " ++ t))
    let st := progressIf a.hasCallback st "Áudio exportado com sucesso." (PyFloat.ofInt 30)
    let st := emit st .closeContainer
    let st := progressIf a.hasCallback st "Transcrevendo áudio (isso pode levar tempo)..."
      (PyFloat.ofInt 40)
    let st := emit st (.logInfo ("Iniciando transcrição de áudio em " ++ pyStrOpt a.language ++ "..."))
    -- `if language and language.lower() != 'auto':` — the two functionally
    -- distinct call shapes of lines 136–139.
    let st :=
      match a.language with
      | some l =>
          if l ≠ "" ∧ pyLower l ≠ "auto" then emit st (.transcribeCall t (some l))
          else emit st (.transcribeCall t none)
      | none => emit st (.transcribeCall t none)
    match env.transcribeRes with
    | .error e => (.error e, st, some t)
    | .ok segments =>
    let st := emit st (.logInfo "Transcrição concluída com sucesso.")
    let st := progressIf a.hasCallback st "Transcrição concluída." (PyFloat.ofInt 90)
    let srt_content := srt_format segments
    let st := progressIf a.hasCallback st "SRT gerado com sucesso." (PyFloat.ofInt 100)
    let st := emit st (.logInfo "Conteúdo SRT gerado.")
    (.ok srt_content, st, some t)

/-- The logging action of the matching `except` handler of
`transcribe_video` (lines 159–167): `FileNotFoundError` and `ValueError`
are logged as errors; any other exception is logged critically (the source
passes `exc_info=True`, i.e. full diagnostic context). -/
def handlerEvent (e : PyExn) : Event :=
  match e.kind with
  | .fileNotFound => .logError ("Erro: " ++ e.msg)
  | .valueError => .logError ("Erro de validação: " ++ e.msg)
  | .other => .logCritical ("Erro inesperado durante a transcrição: " ++ e.msg)

/-- The exception the matching `except` handler re-raises:
`FileNotFoundError` and `ValueError` propagate unchanged; any other
exception is wrapped in a fresh generic `Exception` with the source's
diagnostic message. -/
def handlerExn (e : PyExn) : PyExn :=
  match e.kind with
  | .fileNotFound => e
  | .valueError => e
  | .other => ⟨.other, "Erro inesperado: " ++ e.msg ++ ". Verifique os logs para mais detalhes."⟩

/-- The three `except` handlers of `transcribe_video` (lines 159–167): log,
then re-raise. -/
def handleExn (e : PyExn) (st : St) : PyExn × St := (handlerExn e, emit st (handlerEvent e))

/-- The `finally:` block of `transcribe_video` (lines 168–172):
`if temp_audio_file and os.path.exists(temp_audio_file): os.remove(...)`. -/
def finallyCleanup (tempOpt : Option String) (st : St) : St :=
  match tempOpt with
  | none => st
  | some t =>
      if t = "" then st
      else if fileExists st t then
        emit (emit (removeFile st t) (.tempRemoved t))
          (.logInfo ("Arquivo temporário de áudio removido: " ++ t))
      else st

/-- Embedding of `transcribe_video` (`src/transcriber.py` lines 81–172):
the existence precondition (lines 100–101) runs before the `try` block; the
`except` handlers run before the `finally` block on every error path. -/
def transcribe_video (env : Env) (a : Args) : Except PyExn String × St :=
  let st0 : St := ⟨env.initFiles, []⟩
  if fileExists st0 a.video_path then
    let r := runBody env a st0
    match r.1 with
    | .ok s => (.ok s, finallyCleanup r.2.2 r.2.1)
    | .error e =>
        let p := handleExn e r.2.1
        (.error p.1, finallyCleanup r.2.2 p.2)
  else
    (.error ⟨.fileNotFound, "Video file not found: " ++ a.video_path⟩, st0)

end Transcriber

namespace VideoTranscriberApp

open VideoTranscriber

/-- Embedding of `format_timestamp` from
`src/src/video_transcriber_app/transcriber.py` (lines 186–191); the source
text of the function is identical to the legacy top-level copy. -/
def format_timestamp (seconds : PyFloat) : String :=
  let p1 := seconds.pyDivmod (PyFloat.ofInt 3600)
  let hours := p1.1
  let p2 := p1.2.pyDivmod (PyFloat.ofInt 60)
  let minutes := p2.1
  let p3 := p2.2.pyDivmod (PyFloat.ofInt 1)
  let secs := p3.1
  let milliseconds := p3.2
  pyFmt0 hours.pyInt 2 ++ ":" ++ pyFmt0 minutes.pyInt 2 ++ ":" ++
    pyFmt0 secs.pyInt 2 ++ "," ++ pyFmt0 (milliseconds.mul (PyFloat.ofInt 1000)).pyInt 3

end VideoTranscriberApp

/-! ## The content-analysis dispatcher (`src/phi3_brain.py`)

The language model is an external collaborator: the outcome of the model
call made inside `_generate_response` for each of the five analysis prompts
is scripted by `Phi3Brain.GenEnv`, and `json.loads` (an external library
routine) is an oracle field of the environment.  Everything downstream of
those calls — the catch-all handler of `_generate_response`, the regex
salvage of a JSON-shaped substring, the fallback records, the topic/question
parsing, and the assembly of the metadata record — is translated from the
source. -/

namespace Phi3Brain

/-- Python values as they appear in the analysis record: strings, ints,
floats, lists and dicts. -/
inductive PyVal where
  | str (s : String)
  | int (n : ℤ)
  | float (q : PyFloat)
  | list (xs : List PyVal)
  | dict (kvs : List (String × PyVal))

/-- `re.search(r'{.*}', response, re.DOTALL)`: with a greedy `.*` and DOTALL,
the match runs from the first `'{'` to the last `'}'` after it, or fails. -/
def extractBraces (s : String) : Option String :=
  let fromBrace := s.toList.dropWhile (· ≠ '{')
  let upToBrace := (fromBrace.reverse.dropWhile (· ≠ '}')).reverse
  if upToBrace = [] then none else some (String.mk upToBrace)

/-- `re.sub(r'^\d+\.?\s*', '', line)`: remove leading numbering. -/
def stripNumbering (line : String) : String :=
  let cs := line.toList
  match cs.takeWhile (·.isDigit) with
  | [] => line
  | _ =>
      let rest := cs.dropWhile (·.isDigit)
      let rest :=
        match rest with
        | '.' :: r => r
        | r => r
      String.mk (rest.dropWhile isPySpace)

/-- `line.lower().startswith(('what', 'how', 'why', 'when', 'where', 'who'))`
applied to an already-lowercased line. -/
def startsQuestionWord (low : String) : Bool :=
  ["what", "how", "why", "when", "where", "who"].any fun w => w.isPrefixOf low

/-- Scripted outcomes of the external calls made during one
`generate_metadata` run: the model-generation outcome inside
`_generate_response` for each of the five analysis prompts, and the
behaviour of `json.loads` (`none` embeds a raised exception, absorbed by the
bare `except:` of the source). -/
structure GenEnv where
  summaryResp : Except PyExn String
  topicsResp : Except PyExn String
  sentimentResp : Except PyExn String
  qualityResp : Except PyExn String
  questionsResp : Except PyExn String
  jsonLoads : String → Option PyVal

/-- `Phi3Brain._generate_response` (`src/phi3_brain.py` lines 79–119): the
whole body is wrapped in `try/except Exception`, so a model failure is
absorbed into the string `f"Error: {str(e)}"`; a successful generation is
returned stripped. -/
def _generate_response (outcome : Except PyExn String) : String :=
  match outcome with
  | .ok response => pyStrip response
  | .error e => "Error: " ++ e.msg

/-- `Phi3Brain.generate_summary` (lines 159–182): the generated text is
returned as-is. -/
def generate_summary (env : GenEnv) (_transcription : String) : String :=
  _generate_response env.summaryResp

/-- `Phi3Brain.extract_key_topics` (lines 184–200). -/
def extract_key_topics (env : GenEnv) (_transcription : String) : List String :=
  let response := _generate_response env.topicsResp
  let topics := (response.splitOn ",").map pyStrip
  topics.filter fun topic => topic != "" && topic.length > 2

/-- `Phi3Brain.analyze_sentiment` (lines 202–234): return the parsed
JSON-shaped substring if both the regex search and `json.loads` succeed,
otherwise the fixed fallback record with the raw response attached. -/
def analyze_sentiment (env : GenEnv) (_transcription : String) : PyVal :=
  let response := _generate_response env.sentimentResp
  let parsed :=
    match extractBraces response with
    | some grp => env.jsonLoads grp
    | none => none
  match parsed with
  | some v => v
  | none =>
      .dict [("sentiment", .str "neutral"), ("tone", .str "unknown"),
        ("emotional_moments", .list []), ("confidence", .str "low"),
        ("raw_analysis", .str response)]

/-- `Phi3Brain.analyze_transcription_quality` (lines 121–157): same salvage
structure as `analyze_sentiment`, with its own fallback record. -/
def analyze_transcription_quality (env : GenEnv) (_transcription : String) : PyVal :=
  let response := _generate_response env.qualityResp
  let parsed :=
    match extractBraces response with
    | some grp => env.jsonLoads grp
    | none => none
  match parsed with
  | some v => v
  | none =>
      .dict [("quality_score", .int 7),
        ("issues", .list [.str "Analysis could not be parsed as JSON"]),
        ("improvements", .list [.str "Manual review recommended"]),
        ("confidence_level", .str "medium"),
        ("raw_analysis", .str response)]

/-- `Phi3Brain.generate_questions` (lines 236–258). -/
def generate_questions (env : GenEnv) (_transcription : String) (num_questions : Nat) :
    List String :=
  let response := _generate_response env.questionsResp
  let stripped := (response.splitOn "\n").map pyStrip
  let kept := stripped.filter fun line =>
    line != "" && (line.contains '?' || startsQuestionWord (pyLower line))
  (kept.map stripNumbering).take num_questions

/-- `Phi3Brain.generate_metadata` (`src/phi3_brain.py` lines 275–285): the
analysis record, a dict literal with seven fixed keys. -/
def generate_metadata (env : GenEnv) (transcription : String) : List (String × PyVal) :=
  [("summary", .str (generate_summary env transcription)),
    ("key_topics", .list ((extract_key_topics env transcription).map .str)),
    ("sentiment_analysis", analyze_sentiment env transcription),
    ("quality_assessment", analyze_transcription_quality env transcription),
    ("suggested_questions", .list ((generate_questions env transcription 3).map .str)),
    ("word_count", .int ((pySplitWs transcription).length : ℤ)),
    ("estimated_duration_minutes",
      .float ((PyFloat.ofInt ((pySplitWs transcription).length : ℤ)).div (PyFloat.ofInt 150)))]

end Phi3Brain


/-! ## Spec-side timestamp renderers

`SrtSpec.format_timestamp_round` is modelled from the specification's words
(§4.3: hours `seconds // 3600`, minutes `remainder // 60`, whole seconds,
milliseconds `round(fractional_seconds * 1000)`), to be compared against the
source-derived `Transcriber.format_timestamp`; the remaining `SrtSpec`
definitions express the same decomposition at the level of exact rational
values, with truncation for the millisecond field. -/

namespace SrtSpec

/-- Python `round()` on the value of a `PyFloat` (`den > 0`): round half to
even. -/
def pyRoundSpec (a : PyFloat) : ℤ :=
  let f := Int.fdiv a.num a.den
  let r := a.num - (a.den : ℤ) * f
  if 2 * r < (a.den : ℤ) then f
  else if (a.den : ℤ) < 2 * r then f + 1
  else if f % 2 = 0 then f else f + 1

/-- Modelled from the spec: the timestamp renderer as the specification
describes it, with `round(fractional_seconds * 1000)` for the millisecond
field (everything else as in the source's divmod decomposition). -/
def format_timestamp_round (seconds : PyFloat) : String :=
  let p1 := seconds.pyDivmod (PyFloat.ofInt 3600)
  let hours := p1.1
  let p2 := p1.2.pyDivmod (PyFloat.ofInt 60)
  let minutes := p2.1
  let p3 := p2.2.pyDivmod (PyFloat.ofInt 1)
  let secs := p3.1
  let milliseconds := p3.2
  pyFmt0 hours.pyInt 2 ++ ":" ++ pyFmt0 minutes.pyInt 2 ++ ":" ++
    pyFmt0 secs.pyInt 2 ++ "," ++ pyFmt0 (pyRoundSpec (milliseconds.mul (PyFloat.ofInt 1000))) 3

/-- Hours field: `seconds // 3600`. -/
def tsHours (q : ℚ) : ℤ := ⌊q / 3600⌋

/-- Remainder after removing whole hours. -/
def tsRem1 (q : ℚ) : ℚ := q - 3600 * tsHours q

/-- Minutes field: `remainder // 60`. -/
def tsMinutes (q : ℚ) : ℤ := ⌊tsRem1 q / 60⌋

/-- Remainder after removing whole minutes. -/
def tsRem2 (q : ℚ) : ℚ := tsRem1 q - 60 * tsMinutes q

/-- Whole-seconds field. -/
def tsSeconds (q : ℚ) : ℤ := ⌊tsRem2 q⌋

/-- Fractional seconds left over after the whole-second field. -/
def tsFrac (q : ℚ) : ℚ := tsRem2 q - tsSeconds q

/-- Millisecond field with truncation: `int(fractional_seconds * 1000)`. -/
def tsMillis (q : ℚ) : ℤ := ⌊tsFrac q * 1000⌋

/-- The `HH:MM:SS,mmm` rendering of the exact value `q`, with a truncated
millisecond field. -/
def format_timestamp_trunc (q : ℚ) : String :=
  pyFmt0 (tsHours q) 2 ++ ":" ++ pyFmt0 (tsMinutes q) 2 ++ ":" ++
    pyFmt0 (tsSeconds q) 2 ++ "," ++ pyFmt0 (tsMillis q) 3

end SrtSpec

/-- The progress-callback invocations of a trace, in order. -/
def progressEvents (evs : List Event) : List (String × PyFloat) :=
  evs.filterMap fun e =>
    match e with
    | .progress label pct => some (label, pct)
    | _ => none

/-- A trace with the progress-callback invocations removed. -/
def nonProgressEvents (evs : List Event) : List Event :=
  evs.filter fun e =>
    match e with
    | .progress _ _ => false
    | _ => true

/-- Order on the values denoted by two `PyFloat`s with positive
denominators, by cross-multiplication. -/
def VideoTranscriber.PyFloat.le (a b : PyFloat) : Prop :=
  a.num * (b.den : ℤ) ≤ b.num * (a.den : ℤ)

instance (a b : PyFloat) : Decidable (a.le b) :=
  inferInstanceAs (Decidable (a.num * (b.den : ℤ) ≤ b.num * (a.den : ℤ)))

deriving instance DecidableEq for Except

/-! ## Theorems -/

/-! ## Value semantics of `PyFloat` -/

namespace VideoTranscriber.PyFloat

theorem toRat_ofInt (n : ℤ) : (ofInt n).toRat = (n : ℚ) := by
  simp [ofInt, toRat]

@[simp] theorem pyInt_ofInt (n : ℤ) : (ofInt n).pyInt = n := by
  simp [ofInt, pyInt, Int.tdiv_one]

theorem fdiv_cast_eq_floor (n : ℤ) (d : ℕ) (hd : 0 < d) :
    Int.fdiv n d = ⌊(n : ℚ) / (d : ℚ)⌋ := by
  rw [Rat.floor_intCast_div_natCast, Int.fdiv_eq_ediv]
  omega

theorem floorVal_eq (a : PyFloat) (h : 0 < a.den) : a.floorVal = ⌊a.toRat⌋ := by
  rw [floorVal, toRat, fdiv_cast_eq_floor a.num a.den h]

theorem num_nonneg_of_toRat_nonneg (a : PyFloat) (hden : 0 < a.den)
    (h : 0 ≤ a.toRat) : 0 ≤ a.num := by
  have hd : (0 : ℚ) < (a.den : ℚ) := by exact_mod_cast hden
  have := mul_nonneg h hd.le
  rw [toRat, div_mul_cancel₀ _ hd.ne'] at this
  exact_mod_cast this

theorem pyInt_eq_floor (a : PyFloat) (hden : 0 < a.den) (hnum : 0 ≤ a.num) :
    a.pyInt = ⌊a.toRat⌋ := by
  rw [pyInt, Int.tdiv_eq_ediv hnum (by positivity), ← Int.fdiv_eq_ediv _ (by positivity),
    fdiv_cast_eq_floor a.num a.den hden, toRat]

theorem toRat_mul (a b : PyFloat) : (a.mul b).toRat = a.toRat * b.toRat := by
  simp only [mul, toRat]
  push_cast
  rw [mul_div_mul_comm]

theorem toRat_sub (a b : PyFloat) (ha : 0 < a.den) (hb : 0 < b.den) :
    (a.sub b).toRat = a.toRat - b.toRat := by
  have ha' : ((a.den : ℚ)) ≠ 0 := by positivity
  have hb' : ((b.den : ℚ)) ≠ 0 := by positivity
  simp only [sub, toRat]
  push_cast
  field_simp
  ring

/-- Behaviour of one Python `divmod(a, b)` call on a positive integer
divisor, at the level of denoted values: the quotient is the floor of the
true quotient, the remainder is the corresponding exact remainder, and the
remainder keeps the dividend's denominator. -/
theorem pyDivmod_ofInt (a : PyFloat) (b : ℤ) (hb : 0 < b) (ha : 0 < a.den) :
    (a.pyDivmod (ofInt b)).1 = ofInt ⌊a.toRat / (b : ℚ)⌋ ∧
    (a.pyDivmod (ofInt b)).2.toRat = a.toRat - (b : ℚ) * ⌊a.toRat / (b : ℚ)⌋ ∧
    (a.pyDivmod (ofInt b)).2.den = a.den := by
  have hq : (a.div (ofInt b)).floorVal = ⌊a.toRat / (b : ℚ)⌋ := by
    rw [div, ofInt]
    simp only [hb.le, if_pos]
    rw [floorVal]
    show Int.fdiv (a.num * ((1 : ℕ) : ℤ)) ((a.den * b.natAbs : ℕ) : ℤ) = _
    rw [fdiv_cast_eq_floor _ _ (by positivity)]
    congr 1
    rw [toRat]
    have hAbs : ((b.natAbs : ℕ) : ℚ) = (b : ℚ) := by
      rw [← Int.cast_natCast, Int.natAbs_of_nonneg hb.le]
    push_cast
    rw [mul_one, div_div, hAbs]
  refine ⟨by rw [pyDivmod, hq], ?_, by simp [pyDivmod, sub, mul, ofInt]⟩
  rw [pyDivmod]
  simp only
  rw [hq, toRat_sub _ _ ha (by simp [mul, ofInt]), toRat_mul, toRat_ofInt, toRat_ofInt]

end VideoTranscriber.PyFloat

/-- The value the source's millisecond field truncates is the fractional part
of the seconds remainder, so it lies in `[0, 1)` and the rendered millisecond
count lies in `0..999`: no value can roll over into the seconds field. -/
theorem tsMillis_bounds (q : ℚ) : 0 ≤ SrtSpec.tsMillis q ∧ SrtSpec.tsMillis q ≤ 999 := by
  have h0 : (0 : ℚ) ≤ SrtSpec.tsFrac q := by
    rw [SrtSpec.tsFrac, SrtSpec.tsSeconds, sub_nonneg]
    exact Int.floor_le _
  have h1 : SrtSpec.tsFrac q < 1 := by
    rw [SrtSpec.tsFrac, SrtSpec.tsSeconds, sub_lt_iff_lt_add, add_comm]
    exact Int.lt_floor_add_one _
  constructor
  · rw [SrtSpec.tsMillis]
    exact Int.le_floor.mpr (by positivity)
  · have hlt : SrtSpec.tsFrac q * 1000 < ((1000 : ℤ) : ℚ) := by push_cast; nlinarith
    have h2 := Int.floor_lt.mpr hlt
    rw [SrtSpec.tsMillis]
    omega

/-- The source's `format_timestamp` renders exactly the divmod decomposition
of the denoted value with a TRUNCATED millisecond field. -/
theorem format_timestamp_eq_trunc (s : PyFloat) (hden : 0 < s.den) :
    Transcriber.format_timestamp s = SrtSpec.format_timestamp_trunc s.toRat := by
  obtain ⟨h1q, h1r, h1d⟩ := PyFloat.pyDivmod_ofInt s 3600 (by norm_num) hden
  have hd1 : 0 < (s.pyDivmod (PyFloat.ofInt 3600)).2.den := by rw [h1d]; exact hden
  obtain ⟨h2q, h2r, h2d⟩ := PyFloat.pyDivmod_ofInt (s.pyDivmod (PyFloat.ofInt 3600)).2 60
    (by norm_num) hd1
  have hd2 : 0 < ((s.pyDivmod (PyFloat.ofInt 3600)).2.pyDivmod (PyFloat.ofInt 60)).2.den := by
    rw [h2d]; exact hd1
  obtain ⟨h3q, h3r, h3d⟩ := PyFloat.pyDivmod_ofInt
    ((s.pyDivmod (PyFloat.ofInt 3600)).2.pyDivmod (PyFloat.ofInt 60)).2 1 (by norm_num) hd2
  have c3600 : (((3600 : ℤ) : ℚ)) = (3600 : ℚ) := by norm_num
  have c60 : (((60 : ℤ) : ℚ)) = (60 : ℚ) := by norm_num
  have c1 : (((1 : ℤ) : ℚ)) = (1 : ℚ) := by norm_num
  have c1000 : (((1000 : ℤ) : ℚ)) = (1000 : ℚ) := by norm_num
  have e1 : (s.pyDivmod (PyFloat.ofInt 3600)).2.toRat = SrtSpec.tsRem1 s.toRat := by
    rw [h1r, SrtSpec.tsRem1, SrtSpec.tsHours, c3600]
  have e2 : ((s.pyDivmod (PyFloat.ofInt 3600)).2.pyDivmod (PyFloat.ofInt 60)).2.toRat =
      SrtSpec.tsRem2 s.toRat := by
    rw [h2r, e1, SrtSpec.tsRem2, SrtSpec.tsMinutes, c60]
  have hmsNonneg : 0 ≤ (((s.pyDivmod (PyFloat.ofInt 3600)).2.pyDivmod
      (PyFloat.ofInt 60)).2.pyDivmod (PyFloat.ofInt 1)).2.toRat := by
    rw [h3r, e2, c1, div_one, one_mul, sub_nonneg]
    exact Int.floor_le _
  have hmsDen : 0 < (((s.pyDivmod (PyFloat.ofInt 3600)).2.pyDivmod
      (PyFloat.ofInt 60)).2.pyDivmod (PyFloat.ofInt 1)).2.den := by
    rw [h3d]; exact hd2
  have hmden : 0 < ((((s.pyDivmod (PyFloat.ofInt 3600)).2.pyDivmod (PyFloat.ofInt 60)).2.pyDivmod
      (PyFloat.ofInt 1)).2.mul (PyFloat.ofInt 1000)).den := by
    simpa [PyFloat.mul, PyFloat.ofInt] using hmsDen
  have hmnum : 0 ≤ ((((s.pyDivmod (PyFloat.ofInt 3600)).2.pyDivmod (PyFloat.ofInt 60)).2.pyDivmod
      (PyFloat.ofInt 1)).2.mul (PyFloat.ofInt 1000)).num := by
    have h := PyFloat.num_nonneg_of_toRat_nonneg _ hmsDen hmsNonneg
    simp only [PyFloat.mul, PyFloat.ofInt]
    exact mul_nonneg h (by norm_num)
  simp only [Transcriber.format_timestamp, SrtSpec.format_timestamp_trunc]
  rw [h1q, h2q, h3q, PyFloat.pyInt_ofInt, PyFloat.pyInt_ofInt, PyFloat.pyInt_ofInt]
  rw [PyFloat.pyInt_eq_floor _ hmden hmnum]
  rw [PyFloat.toRat_mul, PyFloat.toRat_ofInt, h3r, e2, e1]
  simp only [SrtSpec.tsHours, SrtSpec.tsMinutes, SrtSpec.tsSeconds, SrtSpec.tsMillis,
    SrtSpec.tsFrac, SrtSpec.tsRem2, SrtSpec.tsRem1, c3600, c60, c1, c1000, div_one, one_mul]

/-! ## String-folding helpers -/

theorem string_foldl_append (l : List String) :
    ∀ s : String, l.foldl (· ++ ·) s = s ++ l.foldl (· ++ ·) "" := by
  induction l with
  | nil => intro s; simp
  | cons a l ih =>
      intro s
      rw [List.foldl_cons, List.foldl_cons, ih (s ++ a), String.empty_append, ih a,
        String.append_assoc]

theorem string_join_cons (a : String) (l : List String) :
    String.join (a :: l) = a ++ String.join l := by
  show (a :: l).foldl (· ++ ·) "" = _
  rw [List.foldl_cons, String.empty_append, string_foldl_append]
  rfl

theorem foldl_append_eq_join {α : Type} (f : α → String) :
    ∀ (l : List α) (s : String),
      l.foldl (fun acc x => acc ++ f x) s = s ++ String.join (l.map f) := by
  intro l
  induction l with
  | nil => intro s; simp [String.join]
  | cons a l ih =>
      intro s
      rw [List.map_cons, string_join_cons, List.foldl_cons, ih (s ++ f a),
        String.append_assoc]

/-! ## Claims C4, C5, C10 -/

/-- Claim C4: the subtitle formatter is a pure, order-preserving function of
the segment sequence — the segment at 0-based position `i` contributes the
line `i+1`, a `start --> end` timestamp line, the stripped text and a blank
separator, joined in input order; on the spec's two-segment example it
produces exactly the displayed blob, and an empty segment list yields the
empty blob. -/
theorem C4_srt_formatter_shape :
    (∀ segments : List Transcriber.Segment,
        Transcriber.srt_format segments =
          String.join (segments.enum.map fun p =>
            toString (p.1 + 1) ++ "\n" ++
              Transcriber.format_timestamp p.2.start ++ " --> " ++
              Transcriber.format_timestamp p.2.«end» ++ "\n" ++
              pyStrip p.2.text ++ "\n\n")) ∧
    Transcriber.srt_format [⟨⟨0, 1⟩, ⟨1, 1⟩, "a"⟩, ⟨⟨1, 1⟩, ⟨5, 2⟩, "b"⟩] =
      "1\n00:00:00,000 --> 00:00:01,000\na\n\n2\n00:00:01,000 --> 00:00:02,500\nb\n\n" ∧
    Transcriber.srt_format [] = "" := by
  refine ⟨fun segments => ?_, by decide, by decide⟩
  rw [Transcriber.srt_format, foldl_append_eq_join, String.empty_append]
  rfl

/-- Claim C5 (counterexample): the claim renders the millisecond field with
`round(fractional_seconds * 1000)`, but the source truncates via `int(...)`.
At seconds = `513/1024` = `0.5009765625` (a dyadic value on which CPython's
float computation is exact) the source yields `00:00:00,500` while the
claimed rounding renderer yields `00:00:00,501`. -/
theorem C5_counterexample :
    Transcriber.format_timestamp ⟨513, 1024⟩ = "00:00:00,500" ∧
    SrtSpec.format_timestamp_round ⟨513, 1024⟩ = "00:00:00,501" ∧
    Transcriber.format_timestamp ⟨513, 1024⟩ ≠ SrtSpec.format_timestamp_round ⟨513, 1024⟩ := by
  refine ⟨by decide, by decide, by decide⟩

/-- Claim C5 (amended): for every non-negative seconds value,
`format_timestamp` decomposes it into hours (`seconds // 3600`), minutes,
whole seconds and milliseconds equal to `int(fractional_seconds * 1000)`
(truncation toward zero, not rounding), zero-padding the fields to
2/2/2/3 digits joined as `HH:MM:SS,mmm`; the millisecond field always lies
in `0..999`, so it never rolls over into the seconds field; in particular
`format_timestamp(3725.4) = "01:02:05,400"` and
`format_timestamp(0.0) = "00:00:00,000"`. -/
theorem C5_timestamp_truncated_render (s : PyFloat) (hden : 0 < s.den) (hnum : 0 ≤ s.num) :
    Transcriber.format_timestamp s = SrtSpec.format_timestamp_trunc s.toRat ∧
    0 ≤ SrtSpec.tsMillis s.toRat ∧ SrtSpec.tsMillis s.toRat ≤ 999 ∧
    Transcriber.format_timestamp ⟨18627, 5⟩ = "01:02:05,400" ∧
    Transcriber.format_timestamp ⟨0, 1⟩ = "00:00:00,000" :=
  ⟨format_timestamp_eq_trunc s hden, (tsMillis_bounds s.toRat).1, (tsMillis_bounds s.toRat).2,
    by decide, by decide⟩

/-- Witness for C5: the amended statement instantiated at the spec's own
example input `3725.4 = 18627/5`. -/
theorem C5_timestamp_truncated_render_witness :
    Transcriber.format_timestamp ⟨18627, 5⟩ =
        SrtSpec.format_timestamp_trunc (PyFloat.toRat ⟨18627, 5⟩) ∧
    0 ≤ SrtSpec.tsMillis (PyFloat.toRat ⟨18627, 5⟩) ∧
    SrtSpec.tsMillis (PyFloat.toRat ⟨18627, 5⟩) ≤ 999 ∧
    Transcriber.format_timestamp ⟨18627, 5⟩ = "01:02:05,400" ∧
    Transcriber.format_timestamp ⟨0, 1⟩ = "00:00:00,000" :=
  C5_timestamp_truncated_render ⟨18627, 5⟩ (by decide) (by decide)

/-- Claim C10: the timestamp renderer of the legacy top-level module and the
one of the packaged module compute the same function — their source text is
identical, and so are their embeddings. -/
theorem C10_formatters_agree (seconds : PyFloat) :
    Transcriber.format_timestamp seconds = VideoTranscriberApp.format_timestamp seconds := rfl

/-! ## Claims about the pipeline's error handling and progress contract -/


@[simp] theorem emit_files (st : St) (e : Event) : (emit st e).files = st.files := rfl

@[simp] theorem emit_events (st : St) (e : Event) : (emit st e).events = st.events ++ [e] := rfl

@[simp] theorem addFile_files (st : St) (p : String) : (addFile st p).files = p :: st.files := rfl

@[simp] theorem addFile_events (st : St) (p : String) : (addFile st p).events = st.events := rfl

@[simp] theorem removeFile_files (st : St) (p : String) :
    (removeFile st p).files = st.files.erase p := rfl

@[simp] theorem removeFile_events (st : St) (p : String) :
    (removeFile st p).events = st.events := rfl

@[simp] theorem progressIf_true (st : St) (label : String) (p : PyFloat) :
    progressIf true st label p = emit st (.progress label p) := rfl

@[simp] theorem progressIf_false (st : St) (label : String) (p : PyFloat) :
    progressIf false st label p = st := rfl

theorem handlerEvent_ne_tempCreated (e : PyExn) (p : String) :
    Transcriber.handlerEvent e ≠ Event.tempCreated p := by
  obtain ⟨k, m⟩ := e
  cases k <;> simp [Transcriber.handlerEvent]

theorem tempCreated_ne_handlerEvent (e : PyExn) (p : String) :
    Event.tempCreated p ≠ Transcriber.handlerEvent e :=
  (handlerEvent_ne_tempCreated e p).symm

theorem handlerEvent_ne_tempRemoved (e : PyExn) (p : String) :
    Transcriber.handlerEvent e ≠ Event.tempRemoved p := by
  obtain ⟨k, m⟩ := e
  cases k <;> simp [Transcriber.handlerEvent]

theorem tempRemoved_ne_handlerEvent (e : PyExn) (p : String) :
    Event.tempRemoved p ≠ Transcriber.handlerEvent e :=
  (handlerEvent_ne_tempRemoved e p).symm

theorem handlerEvent_ne_transcribeCall (e : PyExn) (p : String) (lang : Option String) :
    Transcriber.handlerEvent e ≠ Event.transcribeCall p lang := by
  obtain ⟨k, m⟩ := e
  cases k <;> simp [Transcriber.handlerEvent]

theorem transcribeCall_ne_handlerEvent (e : PyExn) (p : String) (lang : Option String) :
    Event.transcribeCall p lang ≠ Transcriber.handlerEvent e :=
  (handlerEvent_ne_transcribeCall e p lang).symm

/-- Claim C2: for a missing input path, `transcribe_video` raises
`FileNotFoundError` with the source's message immediately: the returned
trace is empty (no model load, no container open, no temp file, no logging)
and the filesystem is untouched. -/
theorem C2_missing_path_untouched (env : Env) (a : Args)
    (h : a.video_path ∉ env.initFiles) :
    Transcriber.transcribe_video env a =
      (.error ⟨.fileNotFound, "Video file not found: " ++ a.video_path⟩,
        ⟨env.initFiles, []⟩) := by
  simp [Transcriber.transcribe_video, fileExists, h]

/-- Witness for C2 at a concrete empty filesystem. -/
theorem C2_missing_path_untouched_witness :
    Transcriber.transcribe_video ⟨[], "t.mp3", .ok (), .ok true, .ok (), .ok []⟩
        ⟨"missing.mp4", "base", some "pt", true⟩ =
      (.error ⟨.fileNotFound, "Video file not found: missing.mp4"⟩, ⟨[], []⟩) :=
  (C2_missing_path_untouched ⟨[], "t.mp3", .ok (), .ok true, .ok (), .ok []⟩
    ⟨"missing.mp4", "base", some "pt", true⟩ (by decide)).trans (by decide)

/-- Claim C3: for an existing video whose container has no audio stream,
`transcribe_video` raises `ValueError` with the source's specific message;
the container was opened and is released again, no temporary audio file is
ever created, and the filesystem is exactly as before the call. -/
theorem C3_no_audio_validation (env : Env) (a : Args)
    (hv : a.video_path ∈ env.initFiles) (hl : env.loadModel = .ok ())
    (ho : env.openClip = .ok false) :
    (Transcriber.transcribe_video env a).1 =
        .error ⟨.valueError, "O vídeo não contém uma faixa de áudio."⟩ ∧
    Event.openContainer ∈ (Transcriber.transcribe_video env a).2.events ∧
    Event.closeContainer ∈ (Transcriber.transcribe_video env a).2.events ∧
    (∀ p, Event.tempCreated p ∉ (Transcriber.transcribe_video env a).2.events) ∧
    (Transcriber.transcribe_video env a).2.files = env.initFiles := by
  cases hcb : a.hasCallback <;>
    simp [Transcriber.transcribe_video, Transcriber.runBody, Transcriber.handleExn,
      Transcriber.handlerExn, Transcriber.handlerEvent, Transcriber.finallyCleanup,
      fileExists, hv, hl, ho, hcb]

/-- Witness for C3 at a concrete audio-less container. -/
theorem C3_no_audio_validation_witness :
    (Transcriber.transcribe_video ⟨["v.mp4"], "t.mp3", .ok (), .ok false, .ok (), .ok []⟩
        ⟨"v.mp4", "base", some "pt", true⟩).1 =
        .error ⟨.valueError, "O vídeo não contém uma faixa de áudio."⟩ ∧
    Event.openContainer ∈ (Transcriber.transcribe_video
      ⟨["v.mp4"], "t.mp3", .ok (), .ok false, .ok (), .ok []⟩
        ⟨"v.mp4", "base", some "pt", true⟩).2.events ∧
    Event.closeContainer ∈ (Transcriber.transcribe_video
      ⟨["v.mp4"], "t.mp3", .ok (), .ok false, .ok (), .ok []⟩
        ⟨"v.mp4", "base", some "pt", true⟩).2.events ∧
    (∀ p, Event.tempCreated p ∉ (Transcriber.transcribe_video
      ⟨["v.mp4"], "t.mp3", .ok (), .ok false, .ok (), .ok []⟩
        ⟨"v.mp4", "base", some "pt", true⟩).2.events) ∧
    (Transcriber.transcribe_video ⟨["v.mp4"], "t.mp3", .ok (), .ok false, .ok (), .ok []⟩
        ⟨"v.mp4", "base", some "pt", true⟩).2.files = ["v.mp4"] :=
  C3_no_audio_validation ⟨["v.mp4"], "t.mp3", .ok (), .ok false, .ok (), .ok []⟩
    ⟨"v.mp4", "base", some "pt", true⟩ (by decide) (by decide) (by decide)

set_option maxHeartbeats 2000000 in
/-- Claim C1: across every exit path of `transcribe_video` (success,
validation failure, unexpected failure), the temporary audio file is removed
exactly as often as it is created, it is created at most once, and it does
not exist when the call ends — never leaked, never double-deleted.
Hypotheses: the `tempfile` module returns a fresh non-empty name. -/
theorem C1_temp_file_cleanup (env : Env) (a : Args)
    (ht : env.tempName ≠ "") (hf : env.tempName ∉ env.initFiles) :
    (Transcriber.transcribe_video env a).2.events.count (Event.tempCreated env.tempName) =
        (Transcriber.transcribe_video env a).2.events.count (Event.tempRemoved env.tempName) ∧
    (Transcriber.transcribe_video env a).2.events.count (Event.tempCreated env.tempName) ≤ 1 ∧
    env.tempName ∉ (Transcriber.transcribe_video env a).2.files := by
  by_cases hv : a.video_path ∈ env.initFiles
  · cases hlm : env.loadModel with
    | error e =>
        cases hcb : a.hasCallback <;>
          simp [Transcriber.transcribe_video, Transcriber.runBody, Transcriber.handleExn,
            Transcriber.finallyCleanup, fileExists,
            List.count_cons, handlerEvent_ne_tempCreated, handlerEvent_ne_tempRemoved,
            hv, hlm, hcb, ht, hf]
    | ok u =>
        cases u
        cases hoc : env.openClip with
        | error e =>
            cases hcb : a.hasCallback <;>
              simp [Transcriber.transcribe_video, Transcriber.runBody, Transcriber.handleExn,
                Transcriber.finallyCleanup, fileExists,
                List.count_cons, handlerEvent_ne_tempCreated, handlerEvent_ne_tempRemoved,
                hv, hlm, hoc, hcb, ht, hf]
        | ok hasAudio =>
            cases hasAudio
            · cases hcb : a.hasCallback <;>
                simp [Transcriber.transcribe_video, Transcriber.runBody, Transcriber.handleExn,
                  Transcriber.finallyCleanup, fileExists,
                  List.count_cons, handlerEvent_ne_tempCreated, handlerEvent_ne_tempRemoved,
                  hv, hlm, hoc, hcb, ht, hf]
            · cases hex : env.exportAudio with
              | error e =>
                  cases hcb : a.hasCallback <;>
                    simp [Transcriber.transcribe_video, Transcriber.runBody,
                      Transcriber.handleExn, Transcriber.finallyCleanup, fileExists,  List.count_cons,
                      handlerEvent_ne_tempCreated, handlerEvent_ne_tempRemoved,
                      hv, hlm, hoc, hex, hcb, ht, hf]
              | ok u2 =>
                  cases u2
                  rcases hlang : a.language with _ | l
                  · cases htr : env.transcribeRes with
                    | error e =>
                        cases hcb : a.hasCallback <;>
                          simp [Transcriber.transcribe_video, Transcriber.runBody,
                            Transcriber.handleExn, Transcriber.finallyCleanup, fileExists,
                            List.count_cons,
                            handlerEvent_ne_tempCreated, handlerEvent_ne_tempRemoved,
                            hv, hlm, hoc, hex, htr, hlang, hcb, ht, hf]
                    | ok segs =>
                        cases hcb : a.hasCallback <;>
                          simp [Transcriber.transcribe_video, Transcriber.runBody,
                            Transcriber.handleExn, Transcriber.finallyCleanup, fileExists,
                            List.count_cons,
                            handlerEvent_ne_tempCreated, handlerEvent_ne_tempRemoved,
                            hv, hlm, hoc, hex, htr, hlang, hcb, ht, hf]
                  · by_cases hcond : l ≠ "" ∧ pyLower l ≠ "auto"
                    · cases htr : env.transcribeRes with
                      | error e =>
                          cases hcb : a.hasCallback <;>
                            simp [Transcriber.transcribe_video, Transcriber.runBody,
                              Transcriber.handleExn, Transcriber.finallyCleanup, fileExists,
                              List.count_cons,
                              handlerEvent_ne_tempCreated, handlerEvent_ne_tempRemoved,
                              hv, hlm, hoc, hex, htr, hlang, hcond, hcb, ht, hf]
                      | ok segs =>
                          cases hcb : a.hasCallback <;>
                            simp [Transcriber.transcribe_video, Transcriber.runBody,
                              Transcriber.handleExn, Transcriber.finallyCleanup, fileExists,
                              List.count_cons,
                              handlerEvent_ne_tempCreated, handlerEvent_ne_tempRemoved,
                              hv, hlm, hoc, hex, htr, hlang, hcond, hcb, ht, hf]
                    · cases htr : env.transcribeRes with
                      | error e =>
                          cases hcb : a.hasCallback <;>
                            simp [Transcriber.transcribe_video, Transcriber.runBody,
                              Transcriber.handleExn, Transcriber.finallyCleanup, fileExists,
                              List.count_cons,
                              handlerEvent_ne_tempCreated, handlerEvent_ne_tempRemoved,
                              hv, hlm, hoc, hex, htr, hlang, hcond, hcb, ht, hf]
                      | ok segs =>
                          cases hcb : a.hasCallback <;>
                            simp [Transcriber.transcribe_video, Transcriber.runBody,
                              Transcriber.handleExn, Transcriber.finallyCleanup, fileExists,
                              List.count_cons,
                              handlerEvent_ne_tempCreated, handlerEvent_ne_tempRemoved,
                              hv, hlm, hoc, hex, htr, hlang, hcond, hcb, ht, hf]
  · simp [Transcriber.transcribe_video, fileExists, hv, hf]


set_option maxHeartbeats 2000000 in
/-- Claim C6: on a successful run with a callback supplied, the callback is
invoked at exactly the seven fixed milestones, in order, with percentages
5, 10, 20, 30, 40, 90, 100 — hence the reported percentages are
non-decreasing and the final invocation reports 100.  With the callback
absent, the same run produces no progress invocations and is otherwise
unchanged: same result, same non-progress trace, same filesystem. -/
theorem C6_progress_milestones (env : Env) (a : Args)
    (hv : a.video_path ∈ env.initFiles) (hl : env.loadModel = .ok ())
    (ho : env.openClip = .ok true) (he : env.exportAudio = .ok ())
    (htr : ∃ segs, env.transcribeRes = .ok segs) (hcb : a.hasCallback = true)
    (ht : env.tempName ≠ "") :
    progressEvents (Transcriber.transcribe_video env a).2.events =
      [("Carregando modelo Whisper...", PyFloat.ofInt 5),
        ("Modelo Whisper carregado.", PyFloat.ofInt 10),
        ("Exportando áudio...", PyFloat.ofInt 20),
        ("Áudio exportado com sucesso.", PyFloat.ofInt 30),
        ("Transcrevendo áudio (isso pode levar tempo)...", PyFloat.ofInt 40),
        ("Transcrição concluída.", PyFloat.ofInt 90),
        ("SRT gerado com sucesso.", PyFloat.ofInt 100)] ∧
    ((progressEvents (Transcriber.transcribe_video env a).2.events).map Prod.snd).Chain'
      VideoTranscriber.PyFloat.le ∧
    ((progressEvents (Transcriber.transcribe_video env a).2.events).map Prod.snd).getLast? =
      some (PyFloat.ofInt 100) ∧
    progressEvents (Transcriber.transcribe_video env
      { a with hasCallback := false }).2.events = [] ∧
    (Transcriber.transcribe_video env { a with hasCallback := false }).1 =
      (Transcriber.transcribe_video env a).1 ∧
    nonProgressEvents (Transcriber.transcribe_video env
        { a with hasCallback := false }).2.events =
      nonProgressEvents (Transcriber.transcribe_video env a).2.events ∧
    (Transcriber.transcribe_video env { a with hasCallback := false }).2.files =
      (Transcriber.transcribe_video env a).2.files := by
  obtain ⟨segs, htr⟩ := htr
  rcases hlang : a.language with _ | l
  · refine ⟨?_, ?_, ?_, ?_, ?_, ?_, ?_⟩ <;>
      simp [Transcriber.transcribe_video, Transcriber.runBody, Transcriber.finallyCleanup,
        fileExists, progressEvents, nonProgressEvents,
        VideoTranscriber.PyFloat.le, PyFloat.ofInt, hv, hl, ho, he, htr, hlang, hcb, ht]
  · by_cases hcond : l ≠ "" ∧ pyLower l ≠ "auto"
    · refine ⟨?_, ?_, ?_, ?_, ?_, ?_, ?_⟩ <;>
        simp [Transcriber.transcribe_video, Transcriber.runBody, Transcriber.finallyCleanup,
          fileExists, progressEvents, nonProgressEvents,
          VideoTranscriber.PyFloat.le, PyFloat.ofInt, hv, hl, ho, he, htr, hlang, hcond, hcb, ht]
    · refine ⟨?_, ?_, ?_, ?_, ?_, ?_, ?_⟩ <;>
        simp [Transcriber.transcribe_video, Transcriber.runBody, Transcriber.finallyCleanup,
          fileExists, progressEvents, nonProgressEvents,
          VideoTranscriber.PyFloat.le, PyFloat.ofInt, hv, hl, ho, he, htr, hlang, hcond, hcb, ht]

/-- Witness for C6: the milestone contract evaluated on a concrete fully
successful run. -/
theorem C6_progress_milestones_witness :
    progressEvents (Transcriber.transcribe_video
        ⟨["v.mp4"], "t.mp3", .ok (), .ok true, .ok (), .ok []⟩
        ⟨"v.mp4", "base", some "pt", true⟩).2.events =
      [("Carregando modelo Whisper...", PyFloat.ofInt 5),
        ("Modelo Whisper carregado.", PyFloat.ofInt 10),
        ("Exportando áudio...", PyFloat.ofInt 20),
        ("Áudio exportado com sucesso.", PyFloat.ofInt 30),
        ("Transcrevendo áudio (isso pode levar tempo)...", PyFloat.ofInt 40),
        ("Transcrição concluída.", PyFloat.ofInt 90),
        ("SRT gerado com sucesso.", PyFloat.ofInt 100)] ∧
    ((progressEvents (Transcriber.transcribe_video
        ⟨["v.mp4"], "t.mp3", .ok (), .ok true, .ok (), .ok []⟩
        ⟨"v.mp4", "base", some "pt", true⟩).2.events).map Prod.snd).Chain'
      VideoTranscriber.PyFloat.le ∧
    ((progressEvents (Transcriber.transcribe_video
        ⟨["v.mp4"], "t.mp3", .ok (), .ok true, .ok (), .ok []⟩
        ⟨"v.mp4", "base", some "pt", true⟩).2.events).map Prod.snd).getLast? =
      some (PyFloat.ofInt 100) ∧
    progressEvents (Transcriber.transcribe_video
        ⟨["v.mp4"], "t.mp3", .ok (), .ok true, .ok (), .ok []⟩
        ⟨"v.mp4", "base", some "pt", false⟩).2.events = [] ∧
    (Transcriber.transcribe_video ⟨["v.mp4"], "t.mp3", .ok (), .ok true, .ok (), .ok []⟩
        ⟨"v.mp4", "base", some "pt", false⟩).1 =
      (Transcriber.transcribe_video ⟨["v.mp4"], "t.mp3", .ok (), .ok true, .ok (), .ok []⟩
        ⟨"v.mp4", "base", some "pt", true⟩).1 ∧
    nonProgressEvents (Transcriber.transcribe_video
        ⟨["v.mp4"], "t.mp3", .ok (), .ok true, .ok (), .ok []⟩
        ⟨"v.mp4", "base", some "pt", false⟩).2.events =
      nonProgressEvents (Transcriber.transcribe_video
        ⟨["v.mp4"], "t.mp3", .ok (), .ok true, .ok (), .ok []⟩
        ⟨"v.mp4", "base", some "pt", true⟩).2.events ∧
    (Transcriber.transcribe_video ⟨["v.mp4"], "t.mp3", .ok (), .ok true, .ok (), .ok []⟩
        ⟨"v.mp4", "base", some "pt", false⟩).2.files =
      (Transcriber.transcribe_video ⟨["v.mp4"], "t.mp3", .ok (), .ok true, .ok (), .ok []⟩
        ⟨"v.mp4", "base", some "pt", true⟩).2.files :=
  C6_progress_milestones ⟨["v.mp4"], "t.mp3", .ok (), .ok true, .ok (), .ok []⟩
    ⟨"v.mp4", "base", some "pt", true⟩ (by decide) rfl rfl rfl ⟨[], rfl⟩ rfl (by decide)

/-- Claim C7 (counterexample): the claim states that every hint other than
the auto-detect sentinel or an absent hint is passed through to the engine
unchanged; but the source's truthiness test `if language and
language.lower() != 'auto'` also routes the empty-string hint `""` (present,
not the sentinel) to the call shape WITHOUT a language argument. -/
theorem C7_counterexample :
    Event.transcribeCall "t.mp3" none ∈
        (Transcriber.transcribe_video ⟨["v.mp4"], "t.mp3", .ok (), .ok true, .ok (), .ok []⟩
          ⟨"v.mp4", "base", some "", false⟩).2.events ∧
    Event.transcribeCall "t.mp3" (some "") ∉
        (Transcriber.transcribe_video ⟨["v.mp4"], "t.mp3", .ok (), .ok true, .ok (), .ok []⟩
          ⟨"v.mp4", "base", some "", false⟩).2.events := by
  decide

/-- Claim C7 (amended): when the hint is absent, empty (Python-falsy), or
equals the auto sentinel case-insensitively, the engine is invoked without a
language argument; for every other hint the engine is invoked with the hint
passed through unchanged — two distinct call shapes, never both in one
run. -/
theorem C7_language_branching (env : Env) (a : Args)
    (hv : a.video_path ∈ env.initFiles) (hl : env.loadModel = .ok ())
    (ho : env.openClip = .ok true) (he : env.exportAudio = .ok ())
    (ht : env.tempName ≠ "") :
    ((a.language = none ∨ a.language = some "" ∨
        (∃ l, a.language = some l ∧ pyLower l = "auto")) →
      Event.transcribeCall env.tempName none ∈
          (Transcriber.transcribe_video env a).2.events ∧
        ∀ l, Event.transcribeCall env.tempName (some l) ∉
            (Transcriber.transcribe_video env a).2.events) ∧
    (∀ l, a.language = some l → l ≠ "" → pyLower l ≠ "auto" →
      Event.transcribeCall env.tempName (some l) ∈
          (Transcriber.transcribe_video env a).2.events ∧
        Event.transcribeCall env.tempName none ∉
            (Transcriber.transcribe_video env a).2.events) := by
  constructor
  · intro hcase
    rcases hcase with hL | hL | ⟨l, hL, hauto⟩
    · cases htr : env.transcribeRes <;> cases hcb : a.hasCallback <;>
        simp [Transcriber.transcribe_video, Transcriber.runBody, Transcriber.handleExn,
          Transcriber.finallyCleanup, fileExists,
          transcribeCall_ne_handlerEvent, handlerEvent_ne_transcribeCall,
          hv, hl, ho, he, ht, htr, hcb, hL]
    · cases htr : env.transcribeRes <;> cases hcb : a.hasCallback <;>
        simp [Transcriber.transcribe_video, Transcriber.runBody, Transcriber.handleExn,
          Transcriber.finallyCleanup, fileExists,
          transcribeCall_ne_handlerEvent, handlerEvent_ne_transcribeCall,
          hv, hl, ho, he, ht, htr, hcb, hL]
    · cases htr : env.transcribeRes <;> cases hcb : a.hasCallback <;>
        simp [Transcriber.transcribe_video, Transcriber.runBody, Transcriber.handleExn,
          Transcriber.finallyCleanup, fileExists,
          transcribeCall_ne_handlerEvent, handlerEvent_ne_transcribeCall,
          hv, hl, ho, he, ht, htr, hcb, hL, hauto]
  · intro l hL hne hnauto
    cases htr : env.transcribeRes <;> cases hcb : a.hasCallback <;>
      simp [Transcriber.transcribe_video, Transcriber.runBody, Transcriber.handleExn,
        Transcriber.finallyCleanup, fileExists,
        transcribeCall_ne_handlerEvent, handlerEvent_ne_transcribeCall,
        hv, hl, ho, he, ht, htr, hcb, hL, hne, hnauto]

/-- Witness for C7 (amended), at the concrete hint `"pt"`. -/
theorem C7_language_branching_witness :
    (((some "pt" : Option String) = none ∨ (some "pt" : Option String) = some "" ∨
        (∃ l, (some "pt" : Option String) = some l ∧ pyLower l = "auto")) →
      Event.transcribeCall "t.mp3" none ∈
          (Transcriber.transcribe_video ⟨["v.mp4"], "t.mp3", .ok (), .ok true, .ok (), .ok []⟩
            ⟨"v.mp4", "base", some "pt", true⟩).2.events ∧
        ∀ l, Event.transcribeCall "t.mp3" (some l) ∉
            (Transcriber.transcribe_video ⟨["v.mp4"], "t.mp3", .ok (), .ok true, .ok (), .ok []⟩
              ⟨"v.mp4", "base", some "pt", true⟩).2.events) ∧
    (∀ l, (some "pt" : Option String) = some l → l ≠ "" → pyLower l ≠ "auto" →
      Event.transcribeCall "t.mp3" (some l) ∈
          (Transcriber.transcribe_video ⟨["v.mp4"], "t.mp3", .ok (), .ok true, .ok (), .ok []⟩
            ⟨"v.mp4", "base", some "pt", true⟩).2.events ∧
        Event.transcribeCall "t.mp3" none ∉
            (Transcriber.transcribe_video ⟨["v.mp4"], "t.mp3", .ok (), .ok true, .ok (), .ok []⟩
              ⟨"v.mp4", "base", some "pt", true⟩).2.events) :=
  C7_language_branching ⟨["v.mp4"], "t.mp3", .ok (), .ok true, .ok (), .ok []⟩
    ⟨"v.mp4", "base", some "pt", true⟩ (by decide) rfl rfl rfl (by decide)

/-- Claim C8: every non-`FileNotFoundError`, non-`ValueError` exception
raised during model load, audio export or transcription is logged with the
source's critical diagnostic message and re-raised wrapped in the generic
unexpected-failure message, as the distinct `other` kind — never silently
swallowed. -/
theorem C8_unexpected_wrapped (env : Env) (a : Args) (m : String)
    (hv : a.video_path ∈ env.initFiles) (ht : env.tempName ≠ "")
    (hcase :
      env.loadModel = .error ⟨.other, m⟩ ∨
      (env.loadModel = .ok () ∧ env.openClip = .ok true ∧
        env.exportAudio = .error ⟨.other, m⟩) ∨
      (env.loadModel = .ok () ∧ env.openClip = .ok true ∧ env.exportAudio = .ok () ∧
        env.transcribeRes = .error ⟨.other, m⟩)) :
    (Transcriber.transcribe_video env a).1 =
        .error ⟨.other, "Erro inesperado: " ++ m ++ ". Verifique os logs para mais detalhes."⟩ ∧
    Event.logCritical ("Erro inesperado durante a transcrição: " ++ m) ∈
      (Transcriber.transcribe_video env a).2.events := by
  rcases hcase with h1 | ⟨h1, h2, h3⟩ | ⟨h1, h2, h3, h4⟩
  · cases hcb : a.hasCallback <;>
      simp [Transcriber.transcribe_video, Transcriber.runBody, Transcriber.handleExn,
        Transcriber.handlerExn, Transcriber.handlerEvent, Transcriber.finallyCleanup,
        fileExists, hv, h1, hcb]
  · cases hcb : a.hasCallback <;>
      simp [Transcriber.transcribe_video, Transcriber.runBody, Transcriber.handleExn,
        Transcriber.handlerExn, Transcriber.handlerEvent, Transcriber.finallyCleanup,
        fileExists, hv, ht, h1, h2, h3, hcb]
  · rcases hlang : a.language with _ | l
    · cases hcb : a.hasCallback <;>
        simp [Transcriber.transcribe_video, Transcriber.runBody, Transcriber.handleExn,
          Transcriber.handlerExn, Transcriber.handlerEvent, Transcriber.finallyCleanup,
          fileExists, hv, ht, h1, h2, h3, h4, hlang, hcb]
    · by_cases hcond : l ≠ "" ∧ pyLower l ≠ "auto"
      · cases hcb : a.hasCallback <;>
          simp [Transcriber.transcribe_video, Transcriber.runBody, Transcriber.handleExn,
            Transcriber.handlerExn, Transcriber.handlerEvent, Transcriber.finallyCleanup,
            fileExists, hv, ht, h1, h2, h3, h4, hlang, hcond, hcb]
      · cases hcb : a.hasCallback <;>
          simp [Transcriber.transcribe_video, Transcriber.runBody, Transcriber.handleExn,
            Transcriber.handlerExn, Transcriber.handlerEvent, Transcriber.finallyCleanup,
            fileExists, hv, ht, h1, h2, h3, h4, hlang, hcond, hcb]

/-- Witness for C8: a concrete model-load failure is wrapped and logged. -/
theorem C8_unexpected_wrapped_witness :
    (Transcriber.transcribe_video ⟨["v.mp4"], "t.mp3", .error ⟨.other, "boom"⟩, .ok true,
        .ok (), .ok []⟩ ⟨"v.mp4", "base", some "pt", true⟩).1 =
        .error ⟨.other, "Erro inesperado: boom. Verifique os logs para mais detalhes."⟩ ∧
    Event.logCritical ("Erro inesperado durante a transcrição: boom") ∈
      (Transcriber.transcribe_video ⟨["v.mp4"], "t.mp3", .error ⟨.other, "boom"⟩, .ok true,
        .ok (), .ok []⟩ ⟨"v.mp4", "base", some "pt", true⟩).2.events := by
  have h := C8_unexpected_wrapped ⟨["v.mp4"], "t.mp3", .error ⟨.other, "boom"⟩, .ok true,
      .ok (), .ok []⟩ ⟨"v.mp4", "base", some "pt", true⟩ "boom" (by decide) (by decide)
    (Or.inl rfl)
  exact ⟨h.1.trans (by decide), h.2⟩

/-- Witness for C1: a fully successful concrete run creates and removes the
temporary file exactly once and leaves no trace of it on disk. -/
theorem C1_temp_file_cleanup_witness :
    (Transcriber.transcribe_video ⟨["v.mp4"], "t.mp3", .ok (), .ok true, .ok (), .ok []⟩
        ⟨"v.mp4", "base", some "pt", true⟩).2.events.count (Event.tempCreated "t.mp3") =
        (Transcriber.transcribe_video ⟨["v.mp4"], "t.mp3", .ok (), .ok true, .ok (), .ok []⟩
          ⟨"v.mp4", "base", some "pt", true⟩).2.events.count (Event.tempRemoved "t.mp3") ∧
    (Transcriber.transcribe_video ⟨["v.mp4"], "t.mp3", .ok (), .ok true, .ok (), .ok []⟩
        ⟨"v.mp4", "base", some "pt", true⟩).2.events.count (Event.tempCreated "t.mp3") ≤ 1 ∧
    "t.mp3" ∉ (Transcriber.transcribe_video ⟨["v.mp4"], "t.mp3", .ok (), .ok true, .ok (),
        .ok []⟩ ⟨"v.mp4", "base", some "pt", true⟩).2.files :=
  C1_temp_file_cleanup ⟨["v.mp4"], "t.mp3", .ok (), .ok true, .ok (), .ok []⟩
    ⟨"v.mp4", "base", some "pt", true⟩ (by decide) (by decide)

/-- Claim C9: the five analysis calls of `generate_metadata` are
independent.  For EVERY scripted outcome of the five model calls and of
JSON parsing — so in particular when any one of them fails or any
structured parse fails — the analysis record carries all seven fixed keys;
a failed summary generation surfaces as its `Error: ...` string without
affecting the key set, and a sentiment call whose structured parse fails
falls back to the fixed default record with the raw response attached,
again without affecting the key set. -/
theorem C9_analysis_independence :
    (∀ (env : Phi3Brain.GenEnv) (t : String),
      (Phi3Brain.generate_metadata env t).map Prod.fst =
        ["summary", "key_topics", "sentiment_analysis", "quality_assessment",
          "suggested_questions", "word_count", "estimated_duration_minutes"]) ∧
    (∀ (env : Phi3Brain.GenEnv) (t : String) (e : PyExn),
      (Phi3Brain.generate_metadata { env with summaryResp := .error e } t).lookup "summary" =
        some (.str ("Error: " ++ e.msg)) ∧
      (Phi3Brain.generate_metadata { env with summaryResp := .error e } t).map Prod.fst =
        ["summary", "key_topics", "sentiment_analysis", "quality_assessment",
          "suggested_questions", "word_count", "estimated_duration_minutes"]) ∧
    (∀ (env : Phi3Brain.GenEnv) (t : String) (e : PyExn),
      (Phi3Brain.generate_metadata
          { env with sentimentResp := .error e, jsonLoads := fun _ => none } t).lookup
          "sentiment_analysis" =
        some (.dict [("sentiment", .str "neutral"), ("tone", .str "unknown"),
          ("emotional_moments", .list []), ("confidence", .str "low"),
          ("raw_analysis", .str ("Error: " ++ e.msg))]) ∧
      (Phi3Brain.generate_metadata
          { env with sentimentResp := .error e, jsonLoads := fun _ => none } t).map Prod.fst =
        ["summary", "key_topics", "sentiment_analysis", "quality_assessment",
          "suggested_questions", "word_count", "estimated_duration_minutes"]) := by
  refine ⟨fun env t => rfl, fun env t e => ⟨?_, rfl⟩, fun env t e => ⟨?_, rfl⟩⟩
  · simp [Phi3Brain.generate_metadata, Phi3Brain.generate_summary,
      Phi3Brain._generate_response, List.lookup]
  · cases hbr : Phi3Brain.extractBraces ("Error: " ++ e.msg) <;>
      simp [Phi3Brain.generate_metadata, Phi3Brain.analyze_sentiment,
        Phi3Brain._generate_response, List.lookup, hbr]

